import Mathlib

/-!
# Verification of the stellar-spectre training backend

Shallow embedding of the Python backend (`backend/train.py`, `backend/dataset.py`,
`backend/api.py`, `backend/ai_model.py`) and proofs about the claims of its
specification.

The training controller (`Trainer.train` in `backend/train.py`) is modelled as a
deterministic generator of atomic state-mutating actions, parameterized by the
run configuration and by the moment (a global step index) at which an external
`stop()` call sets the cancellation flag.  Loss values produced by the neural
network are abstract inputs of the configuration (rationals). Checkpoint writes
are recorded as actions keyed by epoch number, exactly as the code keys its
files `ckpt_epoch_N`.
-/

namespace StellarSpectre

/-- Run status values stored in `Trainer.state['status']`. -/
inductive Status where
  | initialized
  | training
  | stopped
  | finished
deriving DecidableEq, Repr

/-- The mutable run state dictionary `Trainer.state` (train.py lines 36-43). -/
structure TState where
  status : Status
  epoch : ℕ
  last_loss : Option ℚ
  last_val_loss : Option ℚ
  device : String
  classes : List String
deriving DecidableEq, Repr

/-- Run configuration as accepted by `Trainer.__init__` together with the
abstract data the training loop consumes: the number of train/validation
batches per epoch and the loss value of each batch (epoch, batch ↦ loss). -/
structure RunConfig where
  epochs : ℕ
  imgSize : ℕ
  trainBatches : ℕ
  valBatches : ℕ
  trainLoss : ℕ → ℕ → ℚ
  valLoss : ℕ → ℕ → ℚ
  device : String
  classes : List String

/-- State right after `Trainer.__init__` (train.py lines 36-44). -/
def initState (cfg : RunConfig) : TState :=
  { status := .initialized
    epoch := 0
    last_loss := none
    last_val_loss := none
    device := cfg.device
    classes := cfg.classes }

/-- Atomic state-mutating actions executed by `Trainer.train`.  Each one is a
single assignment to `self.state` or a single file write. -/
inductive Action where
  | setStatus (s : Status)
  | setEpoch (e : ℕ)
  | setLastLoss (v : ℚ)
  | setValLoss (v : ℚ)
  | writeCkpt (e : ℕ)
  | writeMeta (e : ℕ)
deriving DecidableEq, Repr

/-- Effect of one atomic action on the run state.  Checkpoint/metadata writes
touch the file system only, not `Trainer.state`. -/
def applyAction (a : Action) (s : TState) : TState :=
  match a with
  | .setStatus st => { s with status := st }
  | .setEpoch e => { s with epoch := e }
  | .setLastLoss v => { s with last_loss := some v }
  | .setValLoss v => { s with last_val_loss := some v }
  | .writeCkpt _ => s
  | .writeMeta _ => s

/-- Whether the cancellation flag `self._stop` is visible at global step `i`.
`stopAt = some k` means an external `stop()` call set the flag just before
step `k` of the training procedure executed. -/
def flagAt (stopAt : Option ℕ) (i : ℕ) : Bool :=
  match stopAt with
  | none => false
  | some k => decide (k ≤ i)

/-- Average validation loss of epoch `e`: `_validate` (train.py lines 88-97)
averages the per-batch losses over `len(val_loader)` batches. -/
def valAvg (cfg : RunConfig) (e : ℕ) : ℚ :=
  (((List.range cfg.valBatches).map (fun b => cfg.valLoss e (b + 1))).sum) / cfg.valBatches

/-- Actions of one epoch body (train.py lines 52-83) and whether the body
raises (a `ZeroDivisionError` when a loader is empty: `running_loss /
len(self.train_loader)` at line 65 or the division in `_validate` at line 97).
The per-batch `last_loss` assignments (line 63) happen before either division,
and the checkpoint and metadata writes (lines 69-83) happen after both. -/
def bodyActions (cfg : RunConfig) (e : ℕ) : List Action × Bool :=
  let batchActs := (List.range cfg.trainBatches).map
    (fun b => Action.setLastLoss (cfg.trainLoss e (b + 1)))
  if cfg.trainBatches = 0 then ([Action.setEpoch e] ++ batchActs, true)
  else if cfg.valBatches = 0 then ([Action.setEpoch e] ++ batchActs, true)
  else ([Action.setEpoch e] ++ batchActs ++
        [Action.setValLoss (valAvg cfg e), Action.writeCkpt e, Action.writeMeta e], false)

/-- The epoch loop of `Trainer.train` (train.py lines 48-83).  Arguments:
current epoch number `e`, remaining iteration count, global step counter `i`.
Returns the emitted actions, the counter after the loop, and whether the body
raised (crashed).  The cancellation check at the loop head (line 49) consumes
one step; on a visible flag it sets status `stopped` and breaks (lines 50-51). -/
def loopRun (cfg : RunConfig) (stopAt : Option ℕ) :
    ℕ → ℕ → ℕ → List Action × ℕ × Bool
  | _, 0, i => ([], i, false)
  | e, rem + 1, i =>
    if flagAt stopAt i then ([Action.setStatus .stopped], i + 2, false)
    else
      let acts := (bodyActions cfg e).1
      let i' := i + 1 + acts.length
      if (bodyActions cfg e).2 then (acts, i', true)
      else
        (acts ++ (loopRun cfg stopAt (e + 1) rem i').1,
         (loopRun cfg stopAt (e + 1) rem i').2.1,
         (loopRun cfg stopAt (e + 1) rem i').2.2)

/-- The whole training procedure `Trainer.train` (train.py lines 46-86) as the
list of atomic actions it executes: status `training` at entry (line 47), the
epoch loop, then — unless the loop raised — the final flag check (line 85)
which sets `finished` only when the flag is still clear (line 86). -/
def trainRun (cfg : RunConfig) (stopAt : Option ℕ) : List Action :=
  let r := loopRun cfg stopAt 1 cfg.epochs 1
  if r.2.2 then Action.setStatus .training :: r.1
  else if flagAt stopAt r.2.1 then Action.setStatus .training :: r.1
  else Action.setStatus .training :: (r.1 ++ [Action.setStatus .finished])

/-- The run state once the training procedure has exited. -/
def finalState (cfg : RunConfig) (stopAt : Option ℕ) : TState :=
  (trainRun cfg stopAt).foldl (fun s a => applyAction a s) (initState cfg)

/-- Snapshot returned by a `status()` poll (api.py lines 89-94) issued after
the first `k` atomic actions of the training procedure have executed. -/
def snapAfter (cfg : RunConfig) (stopAt : Option ℕ) (k : ℕ) : TState :=
  ((trainRun cfg stopAt).take k).foldl (fun s a => applyAction a s) (initState cfg)

/-- The epoch key of a checkpoint-file write, if the action is one. -/
def ckptKeyOf (a : Action) : Option ℕ :=
  match a with
  | .writeCkpt e => some e
  | _ => none

/-- The epoch key of a metadata-record write, if the action is one. -/
def metaKeyOf (a : Action) : Option ℕ :=
  match a with
  | .writeMeta e => some e
  | _ => none

/-- Epoch numbers of the checkpoint files written by the run, in write order.
The code keys each file as `ckpt_epoch_N` in the shared `CHECKPOINT_DIR`
(train.py lines 13, 69-73). -/
def ckptKeys (cfg : RunConfig) (stopAt : Option ℕ) : List ℕ :=
  (trainRun cfg stopAt).filterMap ckptKeyOf

/-- Epoch numbers of the metadata records written by the run (train.py
lines 75-83), in write order. -/
def metaKeys (cfg : RunConfig) (stopAt : Option ℕ) : List ℕ :=
  (trainRun cfg stopAt).filterMap metaKeyOf

/-- An action marking an epoch boundary of the training loop: the per-epoch
`state['epoch']` assignment at the top of an epoch body and the status
transitions at loop entry/exit.  Per-batch loss updates, the validation-loss
update and the checkpoint writes happen strictly inside an epoch. -/
def isEpochBoundary (a : Action) : Bool :=
  match a with
  | .setStatus _ => true
  | .setEpoch _ => true
  | _ => false

/-! ## Concrete run configurations used as test inputs -/

/-- A run of one epoch with one train batch and one validation batch. -/
def cfgOneEpoch : RunConfig :=
  { epochs := 1, imgSize := 224, trainBatches := 1, valBatches := 1,
    trainLoss := fun _ _ => 1, valLoss := fun _ _ => 1,
    device := "cpu", classes := ["cat", "dog"] }

/-- A run of one epoch with two train batches whose per-batch losses differ. -/
def cfgTwoBatches : RunConfig :=
  { epochs := 1, imgSize := 224, trainBatches := 2, valBatches := 1,
    trainLoss := fun _ b => (b : ℚ), valLoss := fun _ _ => 1,
    device := "cpu", classes := ["cat", "dog"] }

/-- A run configured with epoch count 0. -/
def cfgZeroEpochs : RunConfig :=
  { epochs := 0, imgSize := 224, trainBatches := 1, valBatches := 1,
    trainLoss := fun _ _ => 1, valLoss := fun _ _ => 1,
    device := "cpu", classes := ["cat", "dog"] }

/-! ## Helper lemmas about the training loop -/

/-- Per-batch loss updates produce no checkpoint keys. -/
theorem batch_keys (f : ℕ → ℚ) (l : List ℕ) :
    (l.map (fun b => Action.setLastLoss (f b))).filterMap ckptKeyOf = [] := by
  rw [List.filterMap_eq_nil_iff]
  intro a ha
  rcases List.mem_map.mp ha with ⟨b, _, rfl⟩
  rfl

/-- An epoch body that raises writes no checkpoint file. -/
theorem body_keys_crash (cfg : RunConfig) (e : ℕ) (h : (bodyActions cfg e).2 = true) :
    (bodyActions cfg e).1.filterMap ckptKeyOf = [] := by
  by_cases h1 : cfg.trainBatches = 0
  · simp [bodyActions, h1, ckptKeyOf, batch_keys]
  · by_cases h2 : cfg.valBatches = 0
    · simp [bodyActions, h1, h2, ckptKeyOf, batch_keys]
    · simp [bodyActions, h1, h2] at h

/-- A completed epoch body writes exactly the checkpoint keyed by its epoch. -/
theorem body_keys_ok (cfg : RunConfig) (e : ℕ) (h : (bodyActions cfg e).2 = false) :
    (bodyActions cfg e).1.filterMap ckptKeyOf = [e] := by
  by_cases h1 : cfg.trainBatches = 0
  · simp [bodyActions, h1] at h
  · by_cases h2 : cfg.valBatches = 0
    · simp [bodyActions, h1, h2] at h
    · simp [bodyActions, h1, h2, ckptKeyOf, batch_keys]

/-- Checkpoint keys written by the epoch loop are strictly increasing and
bounded below by the starting epoch number. -/
theorem loopRun_keys (cfg : RunConfig) (stopAt : Option ℕ) :
    ∀ rem e i, (((loopRun cfg stopAt e rem i).1.filterMap ckptKeyOf).Chain' (· < ·)) ∧
      ∀ x ∈ (loopRun cfg stopAt e rem i).1.filterMap ckptKeyOf, e ≤ x := by
  intro rem
  induction rem with
  | zero => intro e i; simp [loopRun]
  | succ n ih =>
    intro e i
    by_cases hf : flagAt stopAt i = true
    · simp [loopRun, hf, ckptKeyOf]
    · rw [Bool.not_eq_true] at hf
      by_cases hc : (bodyActions cfg e).2 = true
      · have : loopRun cfg stopAt e (n + 1) i =
            ((bodyActions cfg e).1, i + 1 + (bodyActions cfg e).1.length, true) := by
          simp [loopRun, hf, hc]
        rw [this]
        simp [body_keys_crash cfg e hc]
      · rw [Bool.not_eq_true] at hc
        have hrw : loopRun cfg stopAt e (n + 1) i =
            ((bodyActions cfg e).1 ++
               (loopRun cfg stopAt (e + 1) n (i + 1 + (bodyActions cfg e).1.length)).1,
             (loopRun cfg stopAt (e + 1) n (i + 1 + (bodyActions cfg e).1.length)).2.1,
             (loopRun cfg stopAt (e + 1) n (i + 1 + (bodyActions cfg e).1.length)).2.2) := by
          simp [loopRun, hf, hc]
        rw [hrw]
        obtain ⟨ihc, ihm⟩ := ih (e + 1) (i + 1 + (bodyActions cfg e).1.length)
        simp only [List.filterMap_append, body_keys_ok cfg e hc]
        constructor
        · rw [List.singleton_append, List.chain'_cons']
          refine ⟨?_, ihc⟩
          intro y hy
          have hmem : y ∈ (loopRun cfg stopAt (e + 1) n
              (i + 1 + (bodyActions cfg e).1.length)).1.filterMap ckptKeyOf :=
            List.mem_of_mem_head? hy
          have := ihm y hmem
          omega
        · intro x hx
          rcases List.mem_append.mp hx with hx | hx
          · simp at hx; omega
          · have := ihm x hx; omega

/-- A `status()` snapshot taken after `k + 1` actions is the snapshot after
`k` actions updated by the `k`-th action, when there is one. -/
theorem snapAfter_succ (cfg : RunConfig) (stopAt : Option ℕ) (k : ℕ) :
    snapAfter cfg stopAt (k + 1) =
      match (trainRun cfg stopAt)[k]? with
      | some a => applyAction a (snapAfter cfg stopAt k)
      | none => snapAfter cfg stopAt k := by
  unfold snapAfter
  rw [List.take_succ, List.foldl_append]
  cases h : (trainRun cfg stopAt)[k]? <;> simp

/-! ## Claims about the training controller -/

/-- C1: evaluation of the code at the failing input.  For a one-epoch run in
which `stop()` sets the cancellation flag while epoch 1 is in progress (global
step 5, after the epoch-1 cancellation check but before the final flag check of
`train()`), the training procedure exits with the run status still `training`:
neither terminal state (`finished`/`stopped`) is ever reached, contradicting
the claimed invariant. -/
theorem c1_stop_during_final_epoch_leaves_training :
    (finalState cfgOneEpoch (some 5)).status = Status.training ∧
    (finalState cfgOneEpoch (some 5)).status ≠ Status.finished ∧
    (finalState cfgOneEpoch (some 5)).status ≠ Status.stopped := by
  decide

/-- C4 counterexample: the checkpoint key space is only the epoch number in one
shared directory, so a subsequent run (here: a second run with the same
one-epoch configuration) writes the same `ckpt_epoch_1` key that the first run
already wrote — the combined write sequence repeats a key, refuting
append-only/immutable storage across runs. -/
theorem c4_counterexample :
    ckptKeys cfgOneEpoch none = [1] ∧
    ¬ (ckptKeys cfgOneEpoch none ++ ckptKeys cfgOneEpoch none).Nodup := by
  decide

/-- C4 (amended): within a single run, checkpoint writes target strictly
increasing epoch keys, hence no write of a run ever targets a key that the
same run has already written. -/
theorem c4_within_run_keys_strictly_increasing (cfg : RunConfig) (stopAt : Option ℕ) :
    (ckptKeys cfg stopAt).Chain' (· < ·) ∧ (ckptKeys cfg stopAt).Nodup := by
  have hloop := loopRun_keys cfg stopAt cfg.epochs 1 1
  have hk : ckptKeys cfg stopAt =
      (loopRun cfg stopAt 1 cfg.epochs 1).1.filterMap ckptKeyOf := by
    unfold ckptKeys trainRun
    by_cases hc : (loopRun cfg stopAt 1 cfg.epochs 1).2.2
    · simp [hc, ckptKeyOf]
    · by_cases hf : flagAt stopAt (loopRun cfg stopAt 1 cfg.epochs 1).2.1
      · simp [hc, hf, ckptKeyOf]
      · simp [hc, hf, ckptKeyOf]
  rw [hk]
  refine ⟨hloop.1, ?_⟩
  have hp : ((loopRun cfg stopAt 1 cfg.epochs 1).1.filterMap ckptKeyOf).Pairwise (· < ·) :=
    List.chain'_iff_pairwise.mp hloop.1
  exact hp.imp Nat.ne_of_lt

/-- C6 counterexample: in a one-epoch run with two train batches, the third
and fourth atomic actions are the two per-batch `last_loss` assignments; the
action separating the two polls is not an epoch boundary, both snapshots are
inside epoch 1, yet the snapshots differ (`last_loss` 1 vs 2). -/
theorem c6_counterexample :
    (trainRun cfgTwoBatches none)[3]? = some (Action.setLastLoss 2) ∧
    isEpochBoundary (Action.setLastLoss 2) = false ∧
    (snapAfter cfgTwoBatches none 3).epoch = 1 ∧
    (snapAfter cfgTwoBatches none 4).epoch = 1 ∧
    snapAfter cfgTwoBatches none 3 ≠ snapAfter cfgTwoBatches none 4 := by
  decide

/-- C6 (amended): between two `status()` polls with no epoch-boundary action
(status transition or `state['epoch']` assignment) in between, the `status`,
`epoch`, `classes` and `device` fields of the snapshot are unchanged; the
loss fields, however, may change mid-epoch (per mini-batch / after
validation), as the counterexample shows. -/
theorem c6_fields_stable_between_boundaries (cfg : RunConfig) (stopAt : Option ℕ)
    (i j : ℕ) (hij : i ≤ j)
    (hb : ∀ k a, i ≤ k → k < j → (trainRun cfg stopAt)[k]? = some a →
      isEpochBoundary a = false) :
    (snapAfter cfg stopAt j).status = (snapAfter cfg stopAt i).status ∧
    (snapAfter cfg stopAt j).epoch = (snapAfter cfg stopAt i).epoch ∧
    (snapAfter cfg stopAt j).classes = (snapAfter cfg stopAt i).classes ∧
    (snapAfter cfg stopAt j).device = (snapAfter cfg stopAt i).device := by
  induction j, hij using Nat.le_induction with
  | base => exact ⟨rfl, rfl, rfl, rfl⟩
  | succ j hij ih =>
    have ih' := ih (fun k a hk1 hk2 hk3 => hb k a hk1 (by omega) hk3)
    rw [snapAfter_succ]
    cases h : (trainRun cfg stopAt)[j]? with
    | none => exact ih'
    | some a =>
      have hba := hb j a hij (by omega) h
      cases a <;> simp_all [applyAction, isEpochBoundary]

/-- C6 witness: the amended theorem applied to the polls after actions 3 and 4
of the two-batch run, whose separating action is a per-batch loss update. -/
theorem c6_fields_stable_witness :
    (3 : ℕ) ≤ 4 ∧
    ((snapAfter cfgTwoBatches none 4).status = (snapAfter cfgTwoBatches none 3).status ∧
     (snapAfter cfgTwoBatches none 4).epoch = (snapAfter cfgTwoBatches none 3).epoch ∧
     (snapAfter cfgTwoBatches none 4).classes = (snapAfter cfgTwoBatches none 3).classes ∧
     (snapAfter cfgTwoBatches none 4).device = (snapAfter cfgTwoBatches none 3).device) := by
  refine ⟨by decide, c6_fields_stable_between_boundaries cfgTwoBatches none 3 4 (by decide) ?_⟩
  intro k a hk1 hk2 hk3
  have hk : k = 3 := by omega
  subst hk
  have h3 : (trainRun cfgTwoBatches none)[3]? = some (Action.setLastLoss 2) := by decide
  rw [h3] at hk3
  cases hk3
  rfl

/-- C7: evaluation of the code at the failing input.  `stop()` fires during
epoch 1 of a one-epoch run (global step 3, mid-epoch): epoch 1 still completes
and its checkpoint and metadata records are written, no epoch-2 checkpoint
appears, but the status never transitions to `stopped` — the run exits with
status `training`. -/
theorem c7_stop_during_last_epoch_never_stopped :
    ckptKeys cfgOneEpoch (some 3) = [1] ∧
    metaKeys cfgOneEpoch (some 3) = [1] ∧
    (finalState cfgOneEpoch (some 3)).status ≠ Status.stopped ∧
    (finalState cfgOneEpoch (some 3)).status = Status.training := by
  decide

/-- C10: a run configured with epoch count 0 that is never stopped executes
exactly two actions — status `training` then status `finished` — writes no
checkpoint or metadata file, and leaves `epoch` at 0 and both loss fields
unset. -/
theorem c10_zero_epoch_run (cfg : RunConfig) (h : cfg.epochs = 0) :
    trainRun cfg none = [Action.setStatus .training, Action.setStatus .finished] ∧
    finalState cfg none =
      { status := .finished, epoch := 0, last_loss := none, last_val_loss := none,
        device := cfg.device, classes := cfg.classes } ∧
    (snapAfter cfg none 1).status = .training ∧
    ckptKeys cfg none = [] ∧ metaKeys cfg none = [] := by
  have ht : trainRun cfg none = [Action.setStatus .training, Action.setStatus .finished] := by
    simp [trainRun, h, loopRun, flagAt]
  refine ⟨ht, ?_, ?_, ?_, ?_⟩ <;>
    simp [finalState, snapAfter, ckptKeys, metaKeys, ht, applyAction, initState,
      ckptKeyOf, metaKeyOf]

/-- C10 witness: the zero-epoch theorem instantiated at a concrete
configuration. -/
theorem c10_zero_epoch_run_witness :
    cfgZeroEpochs.epochs = 0 ∧
    (trainRun cfgZeroEpochs none =
        [Action.setStatus .training, Action.setStatus .finished] ∧
     finalState cfgZeroEpochs none =
       { status := .finished, epoch := 0, last_loss := none, last_val_loss := none,
         device := cfgZeroEpochs.device, classes := cfgZeroEpochs.classes } ∧
     (snapAfter cfgZeroEpochs none 1).status = .training ∧
     ckptKeys cfgZeroEpochs none = [] ∧ metaKeys cfgZeroEpochs none = []) :=
  ⟨rfl, c10_zero_epoch_run cfgZeroEpochs rfl⟩

/-! ## The data loader (`backend/dataset.py`)

A file-system tree is modelled explicitly: a node is a plain file or a
directory with named children.  Real directory listings have pairwise distinct
sibling names; theorems that speak about actual datasets take that as a
hypothesis. -/

/-- A file-system node: a plain file, or a directory with named children. -/
inductive FSNode where
  | file
  | dir (children : List (String × FSNode))

/-- Index of the last occurrence of `ch` in `cs` (Python `str.rfind`). -/
def rfindIdx (cs : List Char) (ch : Char) : Option ℕ :=
  ((List.range cs.length).filter (fun i => cs[i]? == some ch)).getLast?

/-- Python `pathlib` `suffix`: the substring from the last dot of the file
name, unless that dot is the leading character (a hidden file) or the final
character. -/
def pathSuffix (name : String) : String :=
  let cs := name.toList
  match rfindIdx cs '.' with
  | some i => if 0 < i ∧ i < cs.length - 1 then String.mk (cs.drop i) else ""
  | none => ""

/-- Python `str.lower` restricted to the ASCII names used here. -/
def lowerStr (s : String) : String := String.mk (s.toList.map Char.toLower)

/-- The fixed extension filter of `ImageFolderDataset.__init__`
(dataset.py line 26). -/
def IMG_EXTS : List String := [".jpg", ".jpeg", ".png", ".bmp", ".gif"]

/-- `img_path.suffix.lower() in IMG_EXTS` (dataset.py line 26). -/
def isImageName (name : String) : Bool := IMG_EXTS.contains (lowerStr (pathSuffix name))

/-- Code-point lexicographic comparison of two names, the order in which
Python `sorted` lists sibling paths. -/
def charListLe : List Char → List Char → Bool
  | [], _ => true
  | _ :: _, [] => false
  | a :: as, b :: bs =>
    if a.toNat < b.toNat then true
    else if b.toNat < a.toNat then false
    else charListLe as bs

/-- Name comparison used by `sorted(self.root_dir.iterdir())`. -/
def nameLe (a b : String) : Bool := charListLe a.toList b.toList

/-- `sorted(self.root_dir.iterdir())` (dataset.py line 17). -/
def sortByName (l : List (String × FSNode)) : List (String × FSNode) :=
  List.insertionSort (fun a b => nameLe a.1 b.1 = true) l

/-- The three lists built by `ImageFolderDataset.__init__`: `self.classes`,
`self.images` (file names) and `self.labels`. -/
structure DatasetScan where
  classes : List String
  images : List String
  labels : List ℕ
deriving DecidableEq, Repr

/-- The scan loop of `ImageFolderDataset.__init__` (dataset.py lines 17-28):
file entries are skipped; for each directory entry its name is appended to
`classes` when absent, `class_idx = classes.index(name)` is computed on the
updated list, and every child whose name passes the extension filter is
appended to `images` with `class_idx` appended to `labels`.  The accumulator
`cs` is the `self.classes` list built so far. -/
def scanDirs : List (String × FSNode) → List String → DatasetScan
  | [], cs => ⟨cs, [], []⟩
  | (_, FSNode.file) :: rest, cs => scanDirs rest cs
  | (name, FSNode.dir sub) :: rest, cs =>
    let cs' := if name ∈ cs then cs else cs ++ [name]
    let idx := cs'.indexOf name
    let imgs := (sub.map (fun e => e.1)).filter isImageName
    let restScan := scanDirs rest cs'
    ⟨restScan.classes, imgs ++ restScan.images, imgs.map (fun _ => idx) ++ restScan.labels⟩

/-- `ImageFolderDataset.__init__` applied to a directory listing. -/
def datasetScan (children : List (String × FSNode)) : DatasetScan :=
  scanDirs (sortByName children) []

/-- Errors a data-loader call can raise.  `fileNotFound` and `notADirectory`
are the `OSError`s that `Path.iterdir` raises on a missing path or on a plain
file; `dataError` is the `DataError` of the specification, carried here only
so that its absence can be stated. -/
inductive LoadError where
  | fileNotFound
  | notADirectory
  | dataError
deriving DecidableEq, Repr

/-- `ImageFolderDataset(root_dir)`: iterating `root_dir.iterdir()` raises
`FileNotFoundError` when the path does not exist and `NotADirectoryError` when
it is a file; otherwise the scan runs without raising. -/
def imageFolderInit (root : Option FSNode) : Except LoadError DatasetScan :=
  match root with
  | none => .error .fileNotFound
  | some .file => .error .notADirectory
  | some (.dir children) => .ok (datasetScan children)

/-- Observable result of `prepare_loaders`: the discovered class set and the
sizes of the train and validation example streams. -/
structure PrepResult where
  classes : List String
  trainSize : ℕ
  valSize : ℕ
deriving DecidableEq, Repr

/-- Lookup of a named child, used for the `(data_path / name).exists()`
checks; `exists()` is true for files as well as directories. -/
def childNode (root : Option FSNode) (name : String) : Option FSNode :=
  match root with
  | some (FSNode.dir children) => (children.find? (fun c => c.1 == name)).map (fun c => c.2)
  | _ => none

/-- Python `int()` applied to a rational: truncation toward zero
(`Int.tdiv` of numerator by denominator).  The Python source computes
`int((1 - val_split) * len(dataset))` in floating point; the rational model is
exact and agrees on every value the claims exercise. -/
def pyInt (q : ℚ) : ℤ := Int.tdiv q.num q.den

/-- `prepare_loaders` (dataset.py lines 45-130): if both `train/` and `val/`
exist they are scanned separately and the class set is taken from the `train/`
scan; otherwise the root itself is scanned and split `int((1-val_split)*n)` /
remainder.  The `DataLoader` wrappers perform no further validation.  No
branch raises a `DataError`. -/
def prepare_loaders (root : Option FSNode) (valSplit : ℚ) : Except LoadError PrepResult :=
  if (childNode root "train").isSome && (childNode root "val").isSome then
    match imageFolderInit (childNode root "train") with
    | .error e => .error e
    | .ok tds =>
      match imageFolderInit (childNode root "val") with
      | .error e => .error e
      | .ok vds => .ok ⟨tds.classes, tds.images.length, vds.images.length⟩
  else
    match imageFolderInit root with
    | .error e => .error e
    | .ok ds =>
      let n := ds.images.length
      let trainSize := (pyInt ((1 - valSplit) * n)).toNat
      .ok ⟨ds.classes, trainSize, n - trainSize⟩

/-- A concrete dataset listing with two non-empty class directories. -/
def cfgChildren : List (String × FSNode) :=
  [("cats", FSNode.dir [("a.jpg", FSNode.file)]), ("dogs", FSNode.dir [("b.png", FSNode.file)])]

/-! ## Helper lemmas about the data loader -/

/-- The flat-structure split of an empty dataset has train size 0. -/
theorem pyInt_one_sub_mul_zero (v : ℚ) : (pyInt ((1 - v) * 0)).toNat = 0 := by
  norm_num [pyInt]

/-- `pyInt` of zero is zero. -/
theorem pyInt_zero : pyInt 0 = 0 := by
  norm_num [pyInt]

/-- The dataset scan never raises the specification's `DataError`. -/
theorem imageFolderInit_no_dataError (root : Option FSNode) :
    imageFolderInit root ≠ .error .dataError := by
  match root with
  | none => simp [imageFolderInit]
  | some .file => simp [imageFolderInit]
  | some (.dir children) => simp [imageFolderInit]

/-- `prepare_loaders` never raises the specification's `DataError`. -/
theorem prepare_loaders_no_dataError (root : Option FSNode) (v : ℚ) :
    prepare_loaders root v ≠ .error .dataError := by
  unfold prepare_loaders
  split
  · cases h1 : imageFolderInit (childNode root "train") with
    | error e =>
      intro hc
      have hee : (Except.error e : Except LoadError PrepResult) =
          Except.error LoadError.dataError := hc
      injection hee with he
      rw [he] at h1
      exact imageFolderInit_no_dataError _ h1
    | ok tds =>
      cases h2 : imageFolderInit (childNode root "val") with
      | error e =>
        intro hc
        have hee : (Except.error e : Except LoadError PrepResult) =
            Except.error LoadError.dataError := hc
        injection hee with he
        rw [he] at h2
        exact imageFolderInit_no_dataError _ h2
      | ok vds =>
        intro hc
        exact Except.noConfusion
          (show (Except.ok ⟨tds.classes, tds.images.length, vds.images.length⟩ :
              Except LoadError PrepResult) = Except.error LoadError.dataError from hc)
  · cases h1 : imageFolderInit root with
    | error e =>
      intro hc
      have hee : (Except.error e : Except LoadError PrepResult) =
          Except.error LoadError.dataError := hc
      injection hee with he
      rw [he] at h1
      exact imageFolderInit_no_dataError _ h1
    | ok ds =>
      intro hc
      exact Except.noConfusion
        (show (Except.ok ⟨ds.classes, (pyInt ((1 - v) * (ds.images.length : ℚ))).toNat,
            ds.images.length - (pyInt ((1 - v) * (ds.images.length : ℚ))).toNat⟩ :
            Except LoadError PrepResult) = Except.error LoadError.dataError from hc)

/-- The accumulated class list is only ever extended by the scan. -/
theorem scanDirs_classes_prefix : ∀ (l : List (String × FSNode)) (cs : List String),
    ∃ t, (scanDirs l cs).classes = cs ++ t := by
  intro l
  induction l with
  | nil => intro cs; exact ⟨[], by simp [scanDirs]⟩
  | cons hd tl ih =>
    intro cs
    match hd with
    | (name, FSNode.file) => simpa [scanDirs] using ih cs
    | (name, FSNode.dir sub) =>
      by_cases hc : name ∈ cs
      · obtain ⟨t, ht⟩ := ih cs
        exact ⟨t, by simp [scanDirs, hc, ht]⟩
      · obtain ⟨t, ht⟩ := ih (cs ++ [name])
        refine ⟨[name] ++ t, ?_⟩
        simp only [scanDirs, if_neg hc]
        rw [ht, List.append_assoc]

/-- Every label the scan assigns is an index into the final class list. -/
theorem scanDirs_labels_lt : ∀ (l : List (String × FSNode)) (cs : List String),
    ∀ x ∈ (scanDirs l cs).labels, x < (scanDirs l cs).classes.length := by
  intro l
  induction l with
  | nil => intro cs x hx; simp [scanDirs] at hx
  | cons hd tl ih =>
    intro cs x hx
    match hd with
    | (name, FSNode.file) =>
      simp only [scanDirs] at hx ⊢
      exact ih cs x hx
    | (name, FSNode.dir sub) =>
      simp only [scanDirs] at hx ⊢
      rcases List.mem_append.mp hx with hx | hx
      · rcases List.mem_map.mp hx with ⟨img, _, rfl⟩
        set cs' := if name ∈ cs then cs else cs ++ [name] with hcs'
        have hmem : name ∈ cs' := by
          by_cases hc : name ∈ cs
          · simp [hcs', hc]
          · simp [hcs', hc]
        have hidx : cs'.indexOf name < cs'.length := List.indexOf_lt_length.mpr hmem
        obtain ⟨t, ht⟩ := scanDirs_classes_prefix tl cs'
        rw [ht, List.length_append]
        omega
      · exact ih _ x hx

/-- When every entry is a directory with a fresh name, the discovered class
list is the accumulator followed by the entry names in scan order. -/
theorem scanDirs_classes_eq : ∀ (l : List (String × FSNode)) (cs : List String),
    (∀ c ∈ l, ∃ sub, c.2 = FSNode.dir sub) →
    ((l.map (fun c => c.1)).Nodup) →
    (∀ n ∈ l.map (fun c => c.1), n ∉ cs) →
    (scanDirs l cs).classes = cs ++ l.map (fun c => c.1) := by
  intro l
  induction l with
  | nil => intro cs _ _ _; simp [scanDirs]
  | cons hd tl ih =>
    intro cs hdirs hnd hdisj
    obtain ⟨sub, hsub⟩ := hdirs hd (List.mem_cons_self hd tl)
    obtain ⟨name, node⟩ := hd
    simp only at hsub
    subst hsub
    have hnotin : name ∉ cs := hdisj name (by simp)
    simp only [scanDirs, if_neg hnotin]
    have hnd' : (tl.map (fun c => c.1)).Nodup := (List.nodup_cons.mp (by simpa using hnd)).2
    have hname : name ∉ tl.map (fun c => c.1) := (List.nodup_cons.mp (by simpa using hnd)).1
    rw [ih (cs ++ [name]) (fun c hc => hdirs c (List.mem_cons_of_mem _ hc)) hnd' ?_]
    · simp
    · intro n hn
      simp only [List.mem_append, List.mem_singleton]
      push_neg
      exact ⟨hdisj n (List.mem_cons_of_mem _ (by simpa using hn)), fun h => hname (h ▸ hn)⟩

/-! ## Claims about the data loader -/

/-- C3 counterexample: an existing root directory that contains zero class
directories (and hence zero usable images).  The claim requires a `DataError`
failure, but `prepare_loaders` succeeds, returning an empty class set and
empty train/validation streams. -/
theorem c3_counterexample :
    prepare_loaders (some (FSNode.dir [])) (1/5) = Except.ok ⟨[], 0, 0⟩ := by
  have h0 := pyInt_one_sub_mul_zero (1/5 : ℚ)
  simp [prepare_loaders, childNode, imageFolderInit, datasetScan, sortByName,
        List.insertionSort, scanDirs, h0, pyInt_zero]

/-- C3 (amended): for every split fraction, the Data Loader fails with the
file system's `FileNotFoundError` (not a `DataError`) when the root directory
does not exist, and with `NotADirectoryError` when the root is a plain file;
with zero class directories, or with class directories containing zero usable
images, it succeeds with an empty example stream; no input ever produces a
`DataError`. -/
theorem c3_loader_error_behaviour (v : ℚ) :
    prepare_loaders none v = Except.error .fileNotFound ∧
    prepare_loaders (some FSNode.file) v = Except.error .notADirectory ∧
    prepare_loaders (some (FSNode.dir [])) v = Except.ok ⟨[], 0, 0⟩ ∧
    prepare_loaders
        (some (FSNode.dir [("classA", FSNode.dir [("notes.txt", FSNode.file)])])) v
      = Except.ok ⟨["classA"], 0, 0⟩ ∧
    ∀ root, prepare_loaders root v ≠ Except.error .dataError := by
  have h0 := pyInt_one_sub_mul_zero v
  have hi : isImageName "notes.txt" = false := by decide
  refine ⟨?_, ?_, ?_, ?_, fun root => prepare_loaders_no_dataError root v⟩
  · simp [prepare_loaders, childNode, imageFolderInit]
  · simp [prepare_loaders, childNode, imageFolderInit]
  · simp [prepare_loaders, childNode, imageFolderInit, datasetScan, sortByName,
          List.insertionSort, scanDirs, h0, pyInt_zero]
  · simp [prepare_loaders, childNode, imageFolderInit, datasetScan, sortByName,
          List.insertionSort, scanDirs, hi, h0, pyInt_zero]

/-- C8: for a dataset directory whose listing consists of `K ≥ 2` class
directories with pairwise distinct names, each containing at least one usable
image, the scan discovers exactly `K` unique classes, listed in discovery
(scan) order, and every assigned label lies in `[0, K)`. -/
theorem c8_class_set_and_labels (children : List (String × FSNode)) (K : ℕ)
    (_hK : 2 ≤ K) (hlen : children.length = K)
    (hnodup : (children.map (fun c => c.1)).Nodup)
    (hdirs : ∀ c ∈ children, ∃ sub, c.2 = FSNode.dir sub ∧
      ∃ e ∈ sub, isImageName e.1 = true) :
    (datasetScan children).classes = (sortByName children).map (fun c => c.1) ∧
    (datasetScan children).classes.length = K ∧
    (datasetScan children).classes.Nodup ∧
    ∀ x ∈ (datasetScan children).labels, x < K := by
  have hperm : List.Perm (sortByName children) children :=
    List.perm_insertionSort _ children
  have hpermmap : List.Perm ((sortByName children).map (fun c => c.1))
      (children.map (fun c => c.1)) :=
    hperm.map _
  have hnd' : ((sortByName children).map (fun c => c.1)).Nodup :=
    hpermmap.nodup_iff.mpr hnodup
  have hdirs' : ∀ c ∈ sortByName children, ∃ sub, c.2 = FSNode.dir sub := by
    intro c hc
    obtain ⟨sub, hsub, _⟩ := hdirs c (hperm.subset hc)
    exact ⟨sub, hsub⟩
  have hcls : (datasetScan children).classes = (sortByName children).map (fun c => c.1) := by
    unfold datasetScan
    rw [scanDirs_classes_eq _ [] hdirs' hnd' (by simp)]
    simp
  have hlen' : (datasetScan children).classes.length = K := by
    rw [hcls, List.length_map, hperm.length_eq, hlen]
  refine ⟨hcls, hlen', ?_, ?_⟩
  · rw [hcls]; exact hnd'
  · intro x hx
    have h := scanDirs_labels_lt (sortByName children) [] x hx
    have : (scanDirs (sortByName children) []).classes.length = K := hlen'
    omega

/-- C8 witness: the class-set theorem instantiated at a two-class dataset
with one usable image per class. -/
theorem c8_class_set_witness :
    ((2 : ℕ) ≤ 2 ∧ cfgChildren.length = 2 ∧ (cfgChildren.map (fun c => c.1)).Nodup ∧
     (∀ c ∈ cfgChildren, ∃ sub, c.2 = FSNode.dir sub ∧
       ∃ e ∈ sub, isImageName e.1 = true)) ∧
    ((datasetScan cfgChildren).classes = (sortByName cfgChildren).map (fun c => c.1) ∧
     (datasetScan cfgChildren).classes.length = 2 ∧
     (datasetScan cfgChildren).classes.Nodup ∧
     ∀ x ∈ (datasetScan cfgChildren).labels, x < 2) := by
  have hdirs : ∀ c ∈ cfgChildren, ∃ sub, c.2 = FSNode.dir sub ∧
      ∃ e ∈ sub, isImageName e.1 = true := by
    intro c hc
    simp only [cfgChildren, List.mem_cons, List.not_mem_nil, or_false] at hc
    rcases hc with rfl | rfl
    · exact ⟨[("a.jpg", FSNode.file)], rfl,
        ("a.jpg", FSNode.file), List.mem_singleton_self _, by decide⟩
    · exact ⟨[("b.png", FSNode.file)], rfl,
        ("b.png", FSNode.file), List.mem_singleton_self _, by decide⟩
  exact ⟨⟨by decide, rfl, by decide, hdirs⟩,
    c8_class_set_and_labels cfgChildren 2 (by decide) rfl (by decide) hdirs⟩

/-! ## Image preprocessing (`predict_image` in api.py vs validation in dataset.py) -/

/-- A deterministic preprocessing pipeline: RGB conversion to a fixed channel
count, square resize, and per-channel normalization statistics. -/
structure Preprocess where
  resizeH : ℕ
  resizeW : ℕ
  channels : ℕ
  mean : List ℚ
  std : List ℚ
deriving DecidableEq, Repr

/-- The transform hard-coded in `predict_image` (api.py lines 149-156):
`convert('RGB')`, `Resize((224, 224))`, `ToTensor`, `Normalize` with the
ImageNet statistics. -/
def predictTransform : Preprocess :=
  ⟨224, 224, 3, [485/1000, 456/1000, 406/1000], [229/1000, 224/1000, 225/1000]⟩

/-- The validation transform built by `prepare_loaders` (dataset.py lines
83-87, with the dataset's `convert('RGB')` at line 37):
`Resize((img_size, img_size))`, `ToTensor`, `Normalize` with the same
statistics, where `img_size` is the run's configured image size
(`Trainer.__init__`, train.py lines 26-31). -/
def valTransform (imgSize : ℕ) : Preprocess :=
  ⟨imgSize, imgSize, 3, [485/1000, 456/1000, 406/1000], [229/1000, 224/1000, 225/1000]⟩

/-- A run configured with image size 64, the size the specification's own
test scenario uses. -/
def cfgImg64 : RunConfig :=
  { epochs := 1, imgSize := 64, trainBatches := 1, valBatches := 1,
    trainLoss := fun _ _ => 1, valLoss := fun _ _ => 1,
    device := "cpu", classes := ["cat", "dog"] }

/-- C2 counterexample: for the run configured with image size 64, validation
preprocessing resizes to 64×64, while `predict_image` always resizes to
224×224 — predict does not use the run's configured square side length. -/
theorem c2_counterexample :
    valTransform cfgImg64.imgSize ≠ predictTransform ∧
    (valTransform cfgImg64.imgSize).resizeH = 64 ∧ predictTransform.resizeH = 224 := by
  refine ⟨?_, rfl, rfl⟩
  intro h
  have := congrArg Preprocess.resizeH h
  simp [valTransform, predictTransform, cfgImg64] at this

/-- C2 (amended): `predict_image` always decodes to a 3-channel tensor resized
to the fixed side length 224 with the same ImageNet normalization that
validation preprocessing uses; it coincides with the run's validation
preprocessing exactly when the run's configured image size is 224 (the
default), not for every configuration. -/
theorem c2_predict_uses_fixed_224 (cfg : RunConfig) :
    predictTransform.resizeH = 224 ∧ predictTransform.resizeW = 224 ∧
    predictTransform.channels = (valTransform cfg.imgSize).channels ∧
    predictTransform.mean = (valTransform cfg.imgSize).mean ∧
    predictTransform.std = (valTransform cfg.imgSize).std ∧
    (valTransform cfg.imgSize = predictTransform ↔ cfg.imgSize = 224) := by
  refine ⟨rfl, rfl, rfl, rfl, rfl, ?_⟩
  constructor
  · intro h
    have := congrArg Preprocess.resizeH h
    simpa [valTransform, predictTransform] using this
  · intro h
    rw [valTransform, predictTransform, h]

/-! ## Model-source resolution of `predict_image` (api.py lines 160-172)

The checkpoint store is a map from paths to the records `torch.load` would
return (absence of a record models `Path(model_path).exists()` being false);
the live run models `TRAINER['instance']`, which always carries a model once
constructed.  Loading a state dict whose output layer does not match the
freshly constructed wrapper raises, modelled as `loadError`. -/

/-- A checkpoint record as saved by `Trainer.train` (train.py lines 70-73):
the `classes` entry may be absent in a foreign checkpoint file, and
`modelStateClasses` is the output-layer size of the saved `model_state`. -/
structure CkptRecord where
  epoch : ℕ
  modelStateClasses : ℕ
  classes : Option (List String)
deriving DecidableEq, Repr

/-- The live trainer `TRAINER['instance']`: its class set and the output size
of its in-memory model. -/
structure LiveRun where
  classes : List String
  modelClasses : ℕ
deriving DecidableEq, Repr

/-- Which model `predict_image` ends up using. -/
inductive ModelSource where
  | fromCheckpoint (classes : List String) (numClasses : ℕ)
  | live (classes : List String) (numClasses : ℕ)
deriving DecidableEq, Repr

/-- Failures of the model-resolution step.  `noModelAvailable` is the
`No model available. Train a model first.` rejection (api.py line 172);
`loadError` is a `load_state_dict` size-mismatch failure. -/
inductive PredictError where
  | noModelAvailable
  | loadError
deriving DecidableEq, Repr

/-- The fallback class list of `checkpoint.get` (api.py line 165). -/
def defaultClasses : List String := ["plant", "non_plant"]

/-- `checkpoint.get('classes', ['plant', 'non_plant'])` (api.py line 165). -/
def ckptClasses (rec : CkptRecord) : List String := rec.classes.getD defaultClasses

/-- The `if model_path and Path(model_path).exists() ... elif t and t.model
... else raise` cascade of api.py lines 160-172.  In the checkpoint branch, a
wrapper of `len(classes)` outputs is constructed and `load_state_dict` raises
unless the saved output layer matches. -/
def resolveModel (modelPath : Option String) (store : String → Option CkptRecord)
    (live : Option LiveRun) : Except PredictError ModelSource :=
  match modelPath with
  | some p =>
    match store p with
    | some rec =>
      let cls := ckptClasses rec
      if rec.modelStateClasses = cls.length then .ok (.fromCheckpoint cls cls.length)
      else .error .loadError
    | none =>
      match live with
      | some t => .ok (.live t.classes t.modelClasses)
      | none => .error .noModelAvailable
  | none =>
    match live with
    | some t => .ok (.live t.classes t.modelClasses)
    | none => .error .noModelAvailable

/-- A concrete checkpoint store holding one well-formed record. -/
def storeA : String → Option CkptRecord :=
  fun p => if p = "good.pth" then some ⟨1, 2, some ["cat", "dog"]⟩ else none

/-- A concrete live run with a two-class model. -/
def liveA : LiveRun := ⟨["cat", "dog"], 2⟩

/-- C5: `predict_image` resolves its model source in order: (a) a given and
existing checkpoint path wins, loading the record's class set into a fresh
wrapper sized to that class count; (b) otherwise a live run's model is used;
(c) otherwise the call fails with the no-model rejection — in particular with
no run ever started and no checkpoint path it fails that way. -/
theorem c5_model_resolution_order :
    (∀ (p : String) (store : String → Option CkptRecord) (live : Option LiveRun)
       (rec : CkptRecord) (cls : List String),
       store p = some rec → rec.classes = some cls →
       rec.modelStateClasses = cls.length →
       resolveModel (some p) store live = .ok (.fromCheckpoint cls cls.length)) ∧
    (∀ (p : String) (store : String → Option CkptRecord) (t : LiveRun),
       store p = none →
       resolveModel (some p) store (some t) = .ok (.live t.classes t.modelClasses)) ∧
    (∀ (store : String → Option CkptRecord) (t : LiveRun),
       resolveModel none store (some t) = .ok (.live t.classes t.modelClasses)) ∧
    (∀ (store : String → Option CkptRecord),
       resolveModel none store none = .error .noModelAvailable) ∧
    (∀ (p : String) (store : String → Option CkptRecord),
       store p = none → resolveModel (some p) store none = .error .noModelAvailable) := by
  refine ⟨?_, ?_, ?_, ?_, ?_⟩
  · intro p store live rec cls hrec hcls hfit
    simp [resolveModel, hrec, ckptClasses, hcls, hfit]
  · intro p store t hnone
    simp [resolveModel, hnone]
  · intro store t
    simp [resolveModel]
  · intro store
    simp [resolveModel]
  · intro p store hnone
    simp [resolveModel, hnone]

/-- C5 witness: the resolution-order theorem instantiated at a concrete store
with one existing checkpoint, a missing path, and a concrete live run. -/
theorem c5_model_resolution_witness :
    (storeA "good.pth" = some ⟨1, 2, some ["cat", "dog"]⟩ ∧
     resolveModel (some "good.pth") storeA (some liveA)
       = .ok (.fromCheckpoint ["cat", "dog"] 2)) ∧
    (storeA "missing.pth" = none ∧
     resolveModel (some "missing.pth") storeA (some liveA)
       = .ok (.live ["cat", "dog"] 2)) ∧
    resolveModel none storeA (some liveA) = .ok (.live ["cat", "dog"] 2) ∧
    resolveModel none storeA none = .error .noModelAvailable ∧
    resolveModel (some "missing.pth") storeA none = .error .noModelAvailable := by
  have hgood : storeA "good.pth" = some ⟨1, 2, some ["cat", "dog"]⟩ := by decide
  have hmiss : storeA "missing.pth" = none := by decide
  refine ⟨⟨hgood, ?_⟩, ⟨hmiss, ?_⟩, ?_, ?_, ?_⟩
  · exact c5_model_resolution_order.1 "good.pth" storeA (some liveA) _ _ hgood rfl rfl
  · exact c5_model_resolution_order.2.1 "missing.pth" storeA liveA hmiss
  · exact c5_model_resolution_order.2.2.1 storeA liveA
  · exact c5_model_resolution_order.2.2.2.1 storeA
  · exact c5_model_resolution_order.2.2.2.2 "missing.pth" storeA hmiss

/-- C9: when the loaded checkpoint record carries no class-set entry, the
class set silently defaults to `['plant', 'non_plant']` and a two-output
wrapper is constructed; with two-class saved weights the call succeeds rather
than failing. -/
theorem c9_missing_classes_defaults (p : String) (store : String → Option CkptRecord)
    (live : Option LiveRun) (rec : CkptRecord)
    (hrec : store p = some rec) (hnone : rec.classes = none)
    (hfit : rec.modelStateClasses = 2) :
    ckptClasses rec = ["plant", "non_plant"] ∧
    (ckptClasses rec).length = 2 ∧
    resolveModel (some p) store live = .ok (.fromCheckpoint ["plant", "non_plant"] 2) := by
  have hcls : ckptClasses rec = ["plant", "non_plant"] := by
    simp [ckptClasses, hnone, defaultClasses]
  refine ⟨hcls, by rw [hcls]; rfl, ?_⟩
  simp [resolveModel, hrec, hcls, hfit]

/-- C9 witness: the default-classes theorem instantiated at a checkpoint
record with no class entry and two-class weights. -/
theorem c9_missing_classes_witness :
    ((fun p => if p = "old.pth" then some (⟨3, 2, none⟩ : CkptRecord) else none) "old.pth"
        = some ⟨3, 2, none⟩ ∧
     (⟨3, 2, none⟩ : CkptRecord).classes = none ∧
     (⟨3, 2, none⟩ : CkptRecord).modelStateClasses = 2) ∧
    (ckptClasses ⟨3, 2, none⟩ = ["plant", "non_plant"] ∧
     (ckptClasses ⟨3, 2, none⟩).length = 2 ∧
     resolveModel (some "old.pth")
         (fun p => if p = "old.pth" then some ⟨3, 2, none⟩ else none) none
       = .ok (.fromCheckpoint ["plant", "non_plant"] 2)) :=
  ⟨⟨by decide, rfl, rfl⟩,
    c9_missing_classes_defaults "old.pth"
      (fun p => if p = "old.pth" then some ⟨3, 2, none⟩ else none) none
      ⟨3, 2, none⟩ (by decide) rfl rfl⟩

end StellarSpectre
